import Mathlib

/-!
Verification of the build-event interception and fan-out bridge of the
aspect-cli plugin system (Go package `bep`, files `bes_pipe.go` in two
variants), together with the argument-rewriting helper
`removeLastBesBackend` of package `system` (`system.go`).

The definitions below shallowly embed the Go source.  External effects
(subscriber callbacks, gRPC sends, the ack-listener goroutines, the
context) are driven by oracles: a `SubscriberModel` fixes the result of a
subscriber callback at each sequence number, a `ProxyModel` fixes the
outcome of each `Send`, and a `Step` list schedules the reader pulls and
the asynchronous abort triggers.  The session interpreter
`streamBesEvents` / `ServeWait` follows the control flow of the newer
`besPipe` variant line by line; `maybeAbortPipeBecauseNoHealthyBackends`
and the lifecycle helpers are translated from the same file.
-/

/-- Timeout constants of the newer `besPipe` variant, in milliseconds
(`besEventGlobalTimeoutDuration = 5 * time.Minute`). -/
def besEventGlobalTimeoutDurationMs : Nat := 5 * 60 * 1000

/-- `besEventThrottleDuration = 50 * time.Millisecond`. -/
def besEventThrottleDurationMs : Nat := 50

/-- `gracePeriodDuration = 2 * time.Second`. -/
def gracePeriodDurationMs : Nat := 2 * 1000

/-- `besSendTimeout = 1 * time.Minute`: the per-send timeout applied to each
proxy `Send` in `publishBesEvent`. -/
def besSendTimeoutMs : Nat := 1 * 60 * 1000

/-- The maximum record size accepted by `protodelim.UnmarshalOptions` in
`streamBesEvents`: `MaxSize: 32 * 1024 * 1024`. -/
def besMaxEventSizeBytes : Nat := 32 * 1024 * 1024

/-- One decoded record of the build-event stream
(`buildeventstream.BuildEvent`): an opaque payload identifier plus the
`LastMessage` final-record flag. -/
structure BuildEvent where
  payloadId : Nat
  lastMessage : Bool
deriving DecidableEq

/-- The kind of `buildv1.BuildEvent` carried by a lifecycle request.
`buildFinished false` is the terminal bracket of the older variant, whose
`BuildEvent_BuildFinished` status field is left empty (the source marks it
`TODO: need status`). -/
inductive LifecycleKind
  | buildEnqueued
  | invocationAttemptStarted
  | invocationAttemptFinished
  | buildFinished (statusPresent : Bool)
deriving DecidableEq

/-- A `buildv1.PublishLifecycleEventRequest` as built by `lifecycleRequest`:
service level `INTERACTIVE` (constant, omitted), an `OrderedBuildEvent`
with a sequence number, the `StreamId{BuildId, InvocationId}`, and the
event. -/
structure LifecycleRequest where
  sequenceNumber : Nat
  buildId : String
  invocationId : String
  event : LifecycleKind
deriving DecidableEq

/-- Go `lifecycleRequest(buildId, invocationId, sequenceNumber, event)`. -/
def lifecycleRequest (buildId invocationId : String) (sequenceNumber : Nat)
    (event : LifecycleKind) : LifecycleRequest :=
  { sequenceNumber := sequenceNumber, buildId := buildId,
    invocationId := invocationId, event := event }

/-- `sendInitialLifecycleEvents` (identical in both variants): the
"enqueued" bracket at sequence 1 followed by the "attempt started" bracket
at sequence 2. -/
def sendInitialLifecycleEvents (buildId invocationId : String) :
    List LifecycleRequest :=
  [lifecycleRequest buildId invocationId 1 LifecycleKind.buildEnqueued,
   lifecycleRequest buildId invocationId 2 LifecycleKind.invocationAttemptStarted]

/-- `sendFinalLifecycleEvents` of the newer variant: only the
"attempt finished" bracket at sequence 2. -/
def sendFinalLifecycleEvents (buildId invocationId : String) :
    List LifecycleRequest :=
  [lifecycleRequest buildId invocationId 2 LifecycleKind.invocationAttemptFinished]

/-- `sendFinalLifecycleEvents` of the older variant (`bes_pipe.go` lines
135-149): the "attempt finished" bracket followed by a "build finished"
bracket whose status field is left empty. -/
def sendFinalLifecycleEventsWithBuildFinished (buildId invocationId : String) :
    List LifecycleRequest :=
  [lifecycleRequest buildId invocationId 2 LifecycleKind.invocationAttemptFinished,
   lifecycleRequest buildId invocationId 2 (LifecycleKind.buildFinished false)]

/-- Go `strings.HasPrefix`, on the character sequences of the strings. -/
def goHasPrefix (s pre : String) : Bool :=
  pre.data.isPrefixOf s.data

/-- Go `strings.TrimPrefix`: drop `pre` from the front of `s` when it is a
prefix, otherwise return `s` unchanged. -/
def goTrimPrefix (s pre : String) : String :=
  if goHasPrefix s pre then ⟨s.data.drop pre.data.length⟩ else s

/-- Outcome of `removeLastBesBackend` with the two `panic` calls made
explicit. -/
inductive RemoveBesBackendResult
  | removed (args : List String) (backend : String)
  | panicNoBackend
  | panicUnsupportedScheme (backend : String)
deriving DecidableEq

/-- Index of the last argument starting with `--bes_backend=`, as computed
by the `for idx, arg := range args` loop of `removeLastBesBackend` (the
loop keeps overwriting `lastBackend`, so the last match wins). -/
def lastBesBackendIdx : List String → Option Nat
  | [] => none
  | arg :: rest =>
    match lastBesBackendIdx rest with
    | some j => some (j + 1)
    | none => if goHasPrefix arg "--bes_backend=" then some 0 else none

/-- Go `removeLastBesBackend` (`system.go` lines 240-261): find the last
`--bes_backend=` argument; panic if there is none; trim the prefix; panic
unless the value starts with `grpc://`; otherwise delete that one argument
(`slices.Delete(args, i, i+1)`) and return it together with the value. -/
def removeLastBesBackend (args : List String) : RemoveBesBackendResult :=
  match lastBesBackendIdx args with
  | none => RemoveBesBackendResult.panicNoBackend
  | some i =>
    let backend := goTrimPrefix (args.getD i "") "--bes_backend="
    if goHasPrefix backend "grpc://" then
      RemoveBesBackendResult.removed (args.take i ++ args.drop (i + 1)) backend
    else
      RemoveBesBackendResult.panicUnsupportedScheme backend

/-- `i` is the index of the last `--bes_backend=` argument: the entry at `i`
matches and no later entry does. -/
def isLastBackendIdx (args : List String) (i : Nat) : Bool :=
  i < args.length && goHasPrefix (args.getD i "") "--bes_backend="
    && (args.drop (i + 1)).all (fun a => !goHasPrefix a "--bes_backend=")

lemma lastBesBackendIdx_eq_none (args : List String)
    (h : args.all (fun a => !goHasPrefix a "--bes_backend=") = true) :
    lastBesBackendIdx args = none := by
  induction args with
  | nil => rfl
  | cons a rest ih =>
    simp only [List.all_cons, Bool.and_eq_true, Bool.not_eq_true'] at h
    simp only [lastBesBackendIdx, ih h.2, h.1, Bool.false_eq_true, if_false]

lemma lastBesBackendIdx_of_isLast (args : List String) (i : Nat)
    (h : isLastBackendIdx args i = true) :
    lastBesBackendIdx args = some i := by
  induction args generalizing i with
  | nil => simp [isLastBackendIdx] at h
  | cons a rest ih =>
    simp only [isLastBackendIdx, Bool.and_eq_true, decide_eq_true_eq] at h
    obtain ⟨⟨hlt, hmatch⟩, hafter⟩ := h
    cases i with
    | zero =>
      have hnone : lastBesBackendIdx rest = none :=
        lastBesBackendIdx_eq_none rest (by simpa using hafter)
      simp only [lastBesBackendIdx, hnone]
      simpa using hmatch
    | succ j =>
      have hrest : isLastBackendIdx rest j = true := by
        simp only [isLastBackendIdx, Bool.and_eq_true, decide_eq_true_eq]
        refine ⟨⟨by simpa [Nat.succ_lt_succ_iff] using hlt, ?_⟩, ?_⟩
        · simpa using hmatch
        · simpa using hafter
      simp only [lastBesBackendIdx, ih j hrest]

/-- C8: `removeLastBesBackend` panics when no `--bes_backend=` argument is
present; otherwise, with `i` the index of the last such argument and
`backend` its trimmed value, it returns the argument list with exactly
that element removed (all other arguments unchanged, in order) together
with the value when the value starts with `grpc://`, and panics with the
unsupported-scheme error otherwise. -/
theorem c8_removeLastBesBackend_spec (args : List String) :
    (args.all (fun a => !goHasPrefix a "--bes_backend=") = true →
      removeLastBesBackend args = RemoveBesBackendResult.panicNoBackend)
    ∧ (∀ i, isLastBackendIdx args i = true →
        (goHasPrefix (goTrimPrefix (args.getD i "") "--bes_backend=") "grpc://" = true →
          removeLastBesBackend args
            = RemoveBesBackendResult.removed (args.take i ++ args.drop (i + 1))
                (goTrimPrefix (args.getD i "") "--bes_backend="))
        ∧ (goHasPrefix (goTrimPrefix (args.getD i "") "--bes_backend=") "grpc://" = false →
          removeLastBesBackend args
            = RemoveBesBackendResult.panicUnsupportedScheme
                (goTrimPrefix (args.getD i "") "--bes_backend="))) := by
  constructor
  · intro h
    simp only [removeLastBesBackend, lastBesBackendIdx_eq_none args h]
  · intro i hi
    constructor
    · intro hg
      simp only [removeLastBesBackend, lastBesBackendIdx_of_isLast args i hi, hg, if_true]
    · intro hg
      simp only [removeLastBesBackend, lastBesBackendIdx_of_isLast args i hi, hg,
        Bool.false_eq_true, if_false]

/-- Witness for C8 at a concrete argument list: the last of two
`--bes_backend=` arguments is removed and its `grpc://` value returned. -/
theorem c8_removeLastBesBackend_spec_witness :
    isLastBackendIdx ["--bes_backend=https://other", "build",
        "--bes_backend=grpc://remote:443"] 2 = true
    ∧ removeLastBesBackend ["--bes_backend=https://other", "build",
        "--bes_backend=grpc://remote:443"]
      = RemoveBesBackendResult.removed ["--bes_backend=https://other", "build"]
          "grpc://remote:443" := by
  refine ⟨by decide, ?_⟩
  have h := (c8_removeLastBesBackend_spec
      ["--bes_backend=https://other", "build", "--bes_backend=grpc://remote:443"]).2
      2 (by decide)
  have h2 := h.1 (by decide)
  simpa using h2

/-- C9: the two `sendFinalLifecycleEvents` variants agree except for the
terminal bracket: the older variant emits the newer variant's single
"attempt finished" request followed by one extra "build finished" request
with an empty status, and both variants' first (and the newer variant's
only) request is the identical "attempt finished" request at sequence 2. -/
theorem c9_final_lifecycle_variants (buildId invocationId : String) :
    sendFinalLifecycleEventsWithBuildFinished buildId invocationId
      = sendFinalLifecycleEvents buildId invocationId
        ++ [lifecycleRequest buildId invocationId 2 (LifecycleKind.buildFinished false)]
    ∧ sendFinalLifecycleEvents buildId invocationId
      = [lifecycleRequest buildId invocationId 2 LifecycleKind.invocationAttemptFinished] :=
  ⟨rfl, rfl⟩

/-- A message observed by one sink (BES proxy): a lifecycle request
(`PublishLifecycleEvent`), one wire envelope of the main stream
(`PublishBuildToolEventStreamRequest` with its `OrderedBuildEvent`
sequence number and payload), or the closing of the send direction
(`CloseSend`). -/
inductive SinkMsg
  | lifecycle (r : LifecycleRequest)
  | envelope (seq : Nat) (payloadId : Nat)
  | closeSend
deriving DecidableEq

/-- Outcome of one proxy `Send` as observed by the `select` in
`publishBesEvent`: the send returned nil, returned an error, or the
`besSendTimeout` timer fired first. -/
inductive SendOutcome
  | sendOk
  | sendErr
  | sendTimeout
deriving DecidableEq

/-- Oracle for one registered subscriber: whether its callback returns a
non-nil error when invoked at a given sequence number. -/
structure SubscriberModel where
  cbErr : Nat → Bool

/-- Oracle for one registered BES proxy: the outcome of `Send` for the
envelope with a given sequence number. -/
structure ProxyModel where
  send : Nat → SendOutcome

/-- The fixed configuration of one session: stream identity plus the
registered subscribers and proxies (both fixed before the event loop
starts). -/
structure Env where
  buildId : String
  invocationId : String
  subscribers : List SubscriberModel
  proxies : List ProxyModel

/-- Per-proxy mutable state: the one-way health latch and the trace of
messages the sink has received, in order. -/
structure ProxyState where
  healthy : Bool
  trace : List SinkMsg
deriving DecidableEq

/-- The kind of error inserted into the session's error accumulator by
`ServeWait`: the pipe-open failure, or the `streamBesEvents` failure it
wraps (inactivity/deadline timeout, parse failure, or a publish error
propagated from a subscriber callback). -/
inductive SessErrKind
  | openPipeFailed
  | streamTimeout
  | streamParse
  | streamPublish
deriving DecidableEq

/-- The mutable state of one `besPipe` session.  `subTraces` records, per
registered subscriber, the `(seqId, payloadId)` arguments of its callback
invocations in order; `published` is the list of wire envelopes built and
fanned out to the proxy set, in order; `pipeAborted`/`abortCount` model
the `sync.Once` latch guarding the unlink side effect (`abortCount`
counts executions of the `Do` body). -/
structure SessionState where
  seqId : Nat
  subTraces : List (List (Nat × Nat))
  proxyStates : List ProxyState
  published : List SinkMsg
  errors : List SessErrKind
  pipeAborted : Bool
  abortCount : Nat
deriving DecidableEq

/-- Go `maybeAbortPipeBecauseNoHealthyBackends`: return early when the
proxy list is empty or some proxy is healthy; otherwise run the unlink
under the `pipeAborted sync.Once` (modelled as the boolean latch plus the
execution counter). -/
def maybeAbortPipeBecauseNoHealthyBackends (st : SessionState) : SessionState :=
  if st.proxyStates.isEmpty then st
  else if st.proxyStates.any (fun p => p.healthy) then st
  else if st.pipeAborted then st
  else { st with pipeAborted := true, abortCount := st.abortCount + 1 }

/-- The ack-listener goroutine of `RegisterBesProxy` observing a receive
failure or end of stream for proxy `i`: the proxy is marked unhealthy.
Modelled from the spec: the `besproxy.BESProxy` implementation is not part
of the sources; spec section 4.5 states the listener "marks the sink
unhealthy and stops". -/
def markProxyUnhealthy (i : Nat) (st : SessionState) : SessionState :=
  match st.proxyStates[i]? with
  | none => st
  | some ps => { st with proxyStates := st.proxyStates.set i { ps with healthy := false } }

/-- The per-proxy body of `publishBesEvent`'s errgroup task: skip unhealthy
proxies; run `Send` under `besSendTimeout`; on success the envelope
reaches the sink; on error or timeout mark the proxy unhealthy (the
returned flag requests the abort check).  The task itself always returns
nil to the errgroup. -/
def publishToProxy (pm : ProxyModel) (seq payload : Nat) (ps : ProxyState) :
    ProxyState × Bool :=
  if !ps.healthy then (ps, false)
  else
    match pm.send seq with
    | SendOutcome.sendOk =>
        ({ ps with trace := ps.trace ++ [SinkMsg.envelope seq payload] }, false)
    | SendOutcome.sendErr => ({ ps with healthy := false }, true)
    | SendOutcome.sendTimeout => ({ ps with healthy := false }, true)

/-- The sink half of `publishBesEvent`: guarded by `len(bb.besProxies) > 0`,
build the wire envelope once and dispatch it to every proxy.  The
per-failure calls to `maybeAbortPipeBecauseNoHealthyBackends` are
collapsed into one check after the batch: the latch is monotone and
health flags only fall, so the check following the last failure decides,
and intermediate checks cannot fire without the final one firing. -/
def publishBesEventProxies (env : Env) (seq payload : Nat) (st : SessionState) :
    SessionState :=
  if env.proxies.length = 0 then st
  else
    let results := List.zipWith (fun pm ps => publishToProxy pm seq payload ps)
      env.proxies st.proxyStates
    let st' := { st with
      proxyStates := results.map (fun r => r.1),
      published := st.published ++ [SinkMsg.envelope seq payload] }
    if results.any (fun r => r.2) then maybeAbortPipeBecauseNoHealthyBackends st'
    else st'

/-- The subscriber half of `publishBesEvent`: one errgroup task per entry
of the subscriber list, each invoking the callback with the event and the
sequence number.  The returned flag is whether `eg.Wait()` yields a
non-nil error, which happens exactly when some callback errs (the proxy
tasks always return nil). -/
def publishToSubscribers (env : Env) (seq payload : Nat) (st : SessionState) :
    SessionState × Bool :=
  ({ st with subTraces := st.subTraces.map (fun t => t ++ [(seq, payload)]) },
    env.subscribers.any (fun s => s.cbErr seq))

/-- Go `publishBesEvent(seqId, event)`: fan the record out to every
subscriber and (when proxies exist) every healthy proxy, wait for the
whole batch, and return the first subscriber error. -/
def publishBesEvent (env : Env) (seq payload : Nat) (st : SessionState) :
    SessionState × Bool :=
  let sres := publishToSubscribers env seq payload st
  (publishBesEventProxies env seq payload sres.1, sres.2)

/-- One pull on the delimited-message reader, the resolved outcome of
`opts.UnmarshalFrom(reader, &event)` together with the `select` on EOF:
a decoded record; EOF with the throttle timer winning (retry); EOF with
the global inactivity timer winning (timeout failure); a read-deadline
expiry after cancellation (`os.ErrDeadlineExceeded`); or a malformed /
over-size record (parse failure). -/
inductive Pull
  | record (e : BuildEvent)
  | eofThrottle
  | eofTimeout
  | deadlineExceeded
  | parseFailure
deriving DecidableEq

/-- One scheduled event of a session run: a reader pull, the exit of proxy
`i`'s ack-listener goroutine (which marks the proxy unhealthy and then
runs the abort check), or the context-cancellation watcher firing the
abort check. -/
inductive Step
  | pull (p : Pull)
  | ackExit (i : Nat)
  | ctxDone
deriving DecidableEq

/-- How `streamBesEvents` terminated: normal completion after the final
record, the inactivity/deadline timeout error, the parse error, or a
publish error propagated from a subscriber callback. -/
inductive StreamResult
  | normal
  | timeoutErr
  | parseErr
  | publishErr
deriving DecidableEq

/-- Go `streamBesEvents`: the reader loop.  Each decoded record increments
`seqId`, is fanned out by `publishBesEvent` (whose error aborts the loop),
and `LastMessage` breaks the loop normally.  EOF throttling retries;
the global timeout, a read-deadline expiry, and a parse failure each
abort with the corresponding error.  `none` means the schedule was
exhausted while the loop was still waiting for data. -/
def streamBesEvents (env : Env) :
    List Step → SessionState → SessionState × Option StreamResult
  | [], st => (st, none)
  | step :: rest, st =>
    match step with
    | Step.ackExit i =>
        streamBesEvents env rest
          (maybeAbortPipeBecauseNoHealthyBackends (markProxyUnhealthy i st))
    | Step.ctxDone =>
        streamBesEvents env rest (maybeAbortPipeBecauseNoHealthyBackends st)
    | Step.pull Pull.eofThrottle => streamBesEvents env rest st
    | Step.pull Pull.eofTimeout => (st, some StreamResult.timeoutErr)
    | Step.pull Pull.deadlineExceeded => (st, some StreamResult.timeoutErr)
    | Step.pull Pull.parseFailure => (st, some StreamResult.parseErr)
    | Step.pull (Pull.record e) =>
        let seq := st.seqId + 1
        let pres := publishBesEvent env seq e.payloadId { st with seqId := seq }
        if pres.2 then (pres.1, some StreamResult.publishErr)
        else if e.lastMessage then (pres.1, some StreamResult.normal)
        else streamBesEvents env rest pres.1

/-- Whether opening the read end of the FIFO in `ServeWait` succeeded. -/
inductive OpenResult
  | opened
  | openFailed
deriving DecidableEq

/-- Result of a `ServeWait` session run: the final session state, how the
stream loop ended (`none` while still in progress), and the value the Go
function returns to its caller — `ServeWait` spawns the ingestion
goroutine and ends with `return nil` on every path. -/
structure ServeWaitOut where
  state : SessionState
  result : Option StreamResult
  ret : Option SessErrKind
deriving DecidableEq

/-- Go `ServeWait`: on open failure, insert the error into the accumulator
and stop; on a stream failure, insert the wrapped error and stop; on
normal completion, send the final lifecycle bracket and `CloseSend` to
every proxy still healthy, skipping unhealthy ones. -/
def ServeWait (env : Env) (openRes : OpenResult) (steps : List Step)
    (st : SessionState) : ServeWaitOut :=
  match openRes with
  | OpenResult.openFailed =>
      { state := { st with errors := st.errors ++ [SessErrKind.openPipeFailed] },
        result := none, ret := none }
  | OpenResult.opened =>
    let sres := streamBesEvents env steps st
    match sres.2 with
    | some StreamResult.timeoutErr =>
        { state := { sres.1 with errors := sres.1.errors ++ [SessErrKind.streamTimeout] },
          result := sres.2, ret := none }
    | some StreamResult.parseErr =>
        { state := { sres.1 with errors := sres.1.errors ++ [SessErrKind.streamParse] },
          result := sres.2, ret := none }
    | some StreamResult.publishErr =>
        { state := { sres.1 with errors := sres.1.errors ++ [SessErrKind.streamPublish] },
          result := sres.2, ret := none }
    | some StreamResult.normal =>
        let closeMsgs :=
          (sendFinalLifecycleEvents env.buildId env.invocationId).map SinkMsg.lifecycle
            ++ [SinkMsg.closeSend]
        { state := { sres.1 with proxyStates := sres.1.proxyStates.map (fun ps =>
            if ps.healthy then { ps with trace := ps.trace ++ closeMsgs } else ps) },
          result := sres.2, ret := none }
    | none => { state := sres.1, result := none, ret := none }

/-- Go `Errors()`: read the accumulator under the shared lock. -/
def ErrorsOf (st : SessionState) : List SessErrKind :=
  st.errors

/-- The session state as the event loop starts: sequence counter zero,
empty traces, and one healthy proxy state per registered proxy, each
already holding the two initial lifecycle brackets that
`RegisterBesProxy` sends synchronously at registration. -/
def initSessionState (env : Env) : SessionState :=
  { seqId := 0
    subTraces := env.subscribers.map (fun _ => [])
    proxyStates := env.proxies.map (fun _ =>
      { healthy := true
        trace := (sendInitialLifecycleEvents env.buildId env.invocationId).map
          SinkMsg.lifecycle })
    published := []
    errors := []
    pipeAborted := false
    abortCount := 0 }

/-- The two ways `maybeAbortPipeBecauseNoHealthyBackends` can act: leave
the state unchanged, or (when the latch was unset) set the latch and
execute the unlink body once. -/
lemma maybeAbort_cases (st : SessionState) :
    maybeAbortPipeBecauseNoHealthyBackends st = st
    ∨ (st.pipeAborted = false
        ∧ maybeAbortPipeBecauseNoHealthyBackends st
          = { st with pipeAborted := true, abortCount := st.abortCount + 1 }) := by
  unfold maybeAbortPipeBecauseNoHealthyBackends
  by_cases h1 : st.proxyStates.isEmpty
  · exact Or.inl (by simp [h1])
  · by_cases h2 : st.proxyStates.any (fun p => p.healthy)
    · exact Or.inl (by simp [h1, h2])
    · cases h3 : st.pipeAborted
      · exact Or.inr ⟨rfl, by simp [h1, h2, h3]⟩
      · exact Or.inl (by simp [h1, h2, h3])

lemma maybeAbort_seqId (st : SessionState) :
    (maybeAbortPipeBecauseNoHealthyBackends st).seqId = st.seqId := by
  rcases maybeAbort_cases st with h | ⟨_, h⟩ <;> simp [h]

lemma maybeAbort_subTraces (st : SessionState) :
    (maybeAbortPipeBecauseNoHealthyBackends st).subTraces = st.subTraces := by
  rcases maybeAbort_cases st with h | ⟨_, h⟩ <;> simp [h]

lemma maybeAbort_proxyStates (st : SessionState) :
    (maybeAbortPipeBecauseNoHealthyBackends st).proxyStates = st.proxyStates := by
  rcases maybeAbort_cases st with h | ⟨_, h⟩ <;> simp [h]

lemma maybeAbort_published (st : SessionState) :
    (maybeAbortPipeBecauseNoHealthyBackends st).published = st.published := by
  rcases maybeAbort_cases st with h | ⟨_, h⟩ <;> simp [h]

lemma maybeAbort_errors (st : SessionState) :
    (maybeAbortPipeBecauseNoHealthyBackends st).errors = st.errors := by
  rcases maybeAbort_cases st with h | ⟨_, h⟩ <;> simp [h]

lemma markProxyUnhealthy_seqId (i : Nat) (st : SessionState) :
    (markProxyUnhealthy i st).seqId = st.seqId := by
  unfold markProxyUnhealthy
  rcases h : st.proxyStates[i]? with _ | ps <;> simp

lemma markProxyUnhealthy_subTraces (i : Nat) (st : SessionState) :
    (markProxyUnhealthy i st).subTraces = st.subTraces := by
  unfold markProxyUnhealthy
  rcases h : st.proxyStates[i]? with _ | ps <;> simp

lemma markProxyUnhealthy_published (i : Nat) (st : SessionState) :
    (markProxyUnhealthy i st).published = st.published := by
  unfold markProxyUnhealthy
  rcases h : st.proxyStates[i]? with _ | ps <;> simp

lemma markProxyUnhealthy_errors (i : Nat) (st : SessionState) :
    (markProxyUnhealthy i st).errors = st.errors := by
  unfold markProxyUnhealthy
  rcases h : st.proxyStates[i]? with _ | ps <;> simp

lemma markProxyUnhealthy_pipeAborted (i : Nat) (st : SessionState) :
    (markProxyUnhealthy i st).pipeAborted = st.pipeAborted := by
  unfold markProxyUnhealthy
  rcases h : st.proxyStates[i]? with _ | ps <;> simp

lemma markProxyUnhealthy_abortCount (i : Nat) (st : SessionState) :
    (markProxyUnhealthy i st).abortCount = st.abortCount := by
  unfold markProxyUnhealthy
  rcases h : st.proxyStates[i]? with _ | ps <;> simp

lemma markProxyUnhealthy_length (i : Nat) (st : SessionState) :
    (markProxyUnhealthy i st).proxyStates.length = st.proxyStates.length := by
  unfold markProxyUnhealthy
  rcases h : st.proxyStates[i]? with _ | ps <;> simp

lemma publishBesEventProxies_seqId (env : Env) (seq payload : Nat) (st : SessionState) :
    (publishBesEventProxies env seq payload st).seqId = st.seqId := by
  unfold publishBesEventProxies
  by_cases h : env.proxies.length = 0
  · simp [h]
  · simp only [h, if_false]
    split
    · rw [maybeAbort_seqId]
    · rfl

lemma publishBesEventProxies_subTraces (env : Env) (seq payload : Nat) (st : SessionState) :
    (publishBesEventProxies env seq payload st).subTraces = st.subTraces := by
  unfold publishBesEventProxies
  by_cases h : env.proxies.length = 0
  · simp [h]
  · simp only [h, if_false]
    split
    · rw [maybeAbort_subTraces]
    · rfl

lemma publishBesEventProxies_errors (env : Env) (seq payload : Nat) (st : SessionState) :
    (publishBesEventProxies env seq payload st).errors = st.errors := by
  unfold publishBesEventProxies
  by_cases h : env.proxies.length = 0
  · simp [h]
  · simp only [h, if_false]
    split
    · rw [maybeAbort_errors]
    · rfl

lemma publishBesEvent_seqId (env : Env) (seq payload : Nat) (st : SessionState) :
    (publishBesEvent env seq payload st).1.seqId = st.seqId := by
  unfold publishBesEvent publishToSubscribers
  rw [publishBesEventProxies_seqId]

lemma publishBesEvent_subTraces (env : Env) (seq payload : Nat) (st : SessionState) :
    (publishBesEvent env seq payload st).1.subTraces
      = st.subTraces.map (fun t => t ++ [(seq, payload)]) := by
  unfold publishBesEvent publishToSubscribers
  rw [publishBesEventProxies_subTraces]

lemma publishBesEvent_errors (env : Env) (seq payload : Nat) (st : SessionState) :
    (publishBesEvent env seq payload st).1.errors = st.errors := by
  unfold publishBesEvent publishToSubscribers
  rw [publishBesEventProxies_errors]

/-- The batch error of `publishBesEvent` comes from the subscriber
callbacks alone: the proxy tasks always hand nil to the errgroup, so send
failures and timeouts never fail the overall dispatch. -/
lemma publishBesEvent_snd (env : Env) (seq payload : Nat) (st : SessionState) :
    (publishBesEvent env seq payload st).2
      = env.subscribers.any (fun s => s.cbErr seq) := by
  rfl

/-- Master preservation lemma for the reader loop: any state predicate
stable under the abort check, under marking a scheduled proxy unhealthy,
and under one record fan-out is an invariant of `streamBesEvents`. -/
lemma streamBesEvents_preserve (env : Env) (P : SessionState → Prop)
    (hmaybe : ∀ st, P st → P (maybeAbortPipeBecauseNoHealthyBackends st))
    (hpub : ∀ (e : BuildEvent) st, P st →
      P (publishBesEvent env (st.seqId + 1) e.payloadId { st with seqId := st.seqId + 1 }).1) :
    ∀ (steps : List Step) (st : SessionState),
      (∀ i, Step.ackExit i ∈ steps → ∀ st', P st' → P (markProxyUnhealthy i st')) →
      P st → P (streamBesEvents env steps st).1 := by
  intro steps
  induction steps with
  | nil => intro st _ h; exact h
  | cons step rest ih =>
    intro st hmark h
    have hmarkRest : ∀ i, Step.ackExit i ∈ rest → ∀ st', P st' → P (markProxyUnhealthy i st') :=
      fun i hi => hmark i (List.mem_cons_of_mem _ hi)
    cases step with
    | ackExit i =>
        have h1 := hmark i (List.mem_cons_self _ _) st h
        exact ih _ hmarkRest (hmaybe _ h1)
    | ctxDone => exact ih _ hmarkRest (hmaybe _ h)
    | pull p =>
        cases p with
        | eofThrottle => exact ih _ hmarkRest h
        | eofTimeout => exact h
        | deadlineExceeded => exact h
        | parseFailure => exact h
        | record e =>
            have h1 := hpub e st h
            simp only [streamBesEvents]
            split
            · exact h1
            · split
              · exact h1
              · exact ih _ hmarkRest h1

/-- The single-execution invariant of the `pipeAborted sync.Once` latch:
the unlink body has run at most once, and not at all while the latch is
unset. -/
def AbortInv (st : SessionState) : Prop :=
  st.abortCount ≤ 1 ∧ (st.pipeAborted = false → st.abortCount = 0)

lemma maybeAbort_AbortInv (st : SessionState) (h : AbortInv st) :
    AbortInv (maybeAbortPipeBecauseNoHealthyBackends st) := by
  rcases maybeAbort_cases st with he | ⟨hfalse, he⟩
  · rw [he]; exact h
  · rw [he]
    refine ⟨?_, ?_⟩
    · have h0 := h.2 hfalse
      simp [h0]
    · intro hcontra
      simp at hcontra

lemma markProxyUnhealthy_AbortInv (i : Nat) (st : SessionState) (h : AbortInv st) :
    AbortInv (markProxyUnhealthy i st) := by
  unfold AbortInv at h ⊢
  rw [markProxyUnhealthy_abortCount, markProxyUnhealthy_pipeAborted]
  exact h

lemma publishBesEventProxies_AbortInv (env : Env) (seq payload : Nat)
    (st : SessionState) (h : AbortInv st) :
    AbortInv (publishBesEventProxies env seq payload st) := by
  unfold publishBesEventProxies
  by_cases hlen : env.proxies.length = 0
  · simpa [hlen] using h
  · simp only [hlen, if_false]
    split
    · exact maybeAbort_AbortInv _ h
    · exact h

lemma publishBesEvent_AbortInv (env : Env) (seq payload : Nat)
    (st : SessionState) (h : AbortInv st) :
    AbortInv (publishBesEvent env seq payload st).1 := by
  unfold publishBesEvent publishToSubscribers
  exact publishBesEventProxies_AbortInv env seq payload _ h

lemma streamBesEvents_AbortInv (env : Env) (steps : List Step) (st : SessionState)
    (h : AbortInv st) : AbortInv (streamBesEvents env steps st).1 := by
  refine streamBesEvents_preserve env AbortInv maybeAbort_AbortInv ?_ steps st ?_ h
  · intro e st' h'
    exact publishBesEvent_AbortInv env _ _ _ h'
  · intro i _ st' h'
    exact markProxyUnhealthy_AbortInv i st' h'

lemma ServeWait_abortCount (env : Env) (openRes : OpenResult) (steps : List Step)
    (st : SessionState) :
    (ServeWait env openRes steps st).state.abortCount
      = match openRes with
        | OpenResult.openFailed => st.abortCount
        | OpenResult.opened => (streamBesEvents env steps st).1.abortCount := by
  cases openRes with
  | openFailed => rfl
  | opened =>
    unfold ServeWait
    rcases h : (streamBesEvents env steps st).2 with _ | r
    · simp [h]
    · cases r <;> simp [h]

lemma ServeWait_pipeAborted (env : Env) (openRes : OpenResult) (steps : List Step)
    (st : SessionState) :
    (ServeWait env openRes steps st).state.pipeAborted
      = match openRes with
        | OpenResult.openFailed => st.pipeAborted
        | OpenResult.opened => (streamBesEvents env steps st).1.pipeAborted := by
  cases openRes with
  | openFailed => rfl
  | opened =>
    unfold ServeWait
    rcases h : (streamBesEvents env steps st).2 with _ | r
    · simp [h]
    · cases r <;> simp [h]

/-- C4: starting from a fresh session, the unlink side effect guarded by
the `pipeAborted sync.Once` latch executes at most once over any whole
session run, whatever interleaving of per-send failures, per-send
timeouts, ack-listener exits and context-cancellation triggers the
schedule contains (concurrent trigger executions are serialized by the
latch, so every interleaving is some schedule). -/
theorem c4_abort_executes_at_most_once (env : Env) (openRes : OpenResult)
    (steps : List Step) :
    (ServeWait env openRes steps (initSessionState env)).state.abortCount ≤ 1 := by
  have hinit : AbortInv (initSessionState env) := by
    constructor <;> simp [initSessionState]
  rw [ServeWait_abortCount]
  cases openRes with
  | openFailed => simp [initSessionState]
  | opened => exact (streamBesEvents_AbortInv env steps _ hinit).1

lemma markProxyUnhealthy_empty (i : Nat) (st : SessionState)
    (h : st.proxyStates = []) : markProxyUnhealthy i st = st := by
  unfold markProxyUnhealthy
  simp [h]

lemma maybeAbort_empty (st : SessionState) (h : st.proxyStates = []) :
    maybeAbortPipeBecauseNoHealthyBackends st = st := by
  unfold maybeAbortPipeBecauseNoHealthyBackends
  simp [h]

lemma publishBesEvent_of_no_proxies (env : Env) (hnp : env.proxies = [])
    (seq payload : Nat) (st : SessionState) :
    (publishBesEvent env seq payload st).1
      = { st with subTraces := st.subTraces.map (fun t => t ++ [(seq, payload)]) } := by
  unfold publishBesEvent publishToSubscribers publishBesEventProxies
  simp [hnp]

/-- Steps of a schedule that are reader pulls (as opposed to asynchronous
abort triggers). -/
def isPullStep : Step → Bool
  | Step.pull _ => true
  | Step.ackExit _ => false
  | Step.ctxDone => false

lemma streamBesEvents_no_proxies (env : Env) (hnp : env.proxies = []) :
    ∀ (steps : List Step) (st : SessionState), st.proxyStates = [] →
      streamBesEvents env steps st
          = streamBesEvents env (steps.filter isPullStep) st
      ∧ (streamBesEvents env steps st).1.proxyStates = []
      ∧ (streamBesEvents env steps st).1.pipeAborted = st.pipeAborted
      ∧ (streamBesEvents env steps st).1.abortCount = st.abortCount := by
  intro steps
  induction steps with
  | nil => intro st h; exact ⟨rfl, h, rfl, rfl⟩
  | cons step rest ih =>
    intro st h
    cases step with
    | ackExit i =>
        have heq : streamBesEvents env (Step.ackExit i :: rest) st
            = streamBesEvents env rest st := by
          simp only [streamBesEvents, markProxyUnhealthy_empty i st h,
            maybeAbort_empty st h]
        have hfil : (Step.ackExit i :: rest).filter isPullStep
            = rest.filter isPullStep := by
          simp [List.filter, isPullStep]
        rcases ih st h with ⟨h1, h2, h3, h4⟩
        exact ⟨by rw [heq, hfil, ← h1], by rw [heq]; exact h2,
          by rw [heq]; exact h3, by rw [heq]; exact h4⟩
    | ctxDone =>
        have heq : streamBesEvents env (Step.ctxDone :: rest) st
            = streamBesEvents env rest st := by
          simp only [streamBesEvents, maybeAbort_empty st h]
        have hfil : (Step.ctxDone :: rest).filter isPullStep
            = rest.filter isPullStep := by
          simp [List.filter, isPullStep]
        rcases ih st h with ⟨h1, h2, h3, h4⟩
        exact ⟨by rw [heq, hfil, ← h1], by rw [heq]; exact h2,
          by rw [heq]; exact h3, by rw [heq]; exact h4⟩
    | pull p =>
        have hfil : (Step.pull p :: rest).filter isPullStep
            = Step.pull p :: rest.filter isPullStep := by
          simp [List.filter, isPullStep]
        cases p with
        | eofThrottle =>
            have heq : streamBesEvents env (Step.pull Pull.eofThrottle :: rest) st
                = streamBesEvents env rest st := rfl
            rcases ih st h with ⟨h1, h2, h3, h4⟩
            refine ⟨?_, by rw [heq]; exact h2, by rw [heq]; exact h3,
              by rw [heq]; exact h4⟩
            rw [heq, hfil, h1]
            rfl
        | eofTimeout => exact ⟨by rw [hfil]; rfl, h, rfl, rfl⟩
        | deadlineExceeded => exact ⟨by rw [hfil]; rfl, h, rfl, rfl⟩
        | parseFailure => exact ⟨by rw [hfil]; rfl, h, rfl, rfl⟩
        | record e =>
            have hpub := publishBesEvent_of_no_proxies env hnp (st.seqId + 1)
              e.payloadId { st with seqId := st.seqId + 1 }
            have hps : (publishBesEvent env (st.seqId + 1) e.payloadId
                { st with seqId := st.seqId + 1 }).1.proxyStates = [] := by
              rw [hpub]; exact h
            rcases ih _ hps with ⟨h1, h2, h3, h4⟩
            have hpa : (publishBesEvent env (st.seqId + 1) e.payloadId
                { st with seqId := st.seqId + 1 }).1.pipeAborted = st.pipeAborted := by
              rw [hpub]
            have hac : (publishBesEvent env (st.seqId + 1) e.payloadId
                { st with seqId := st.seqId + 1 }).1.abortCount = st.abortCount := by
              rw [hpub]
            simp only [streamBesEvents, hfil]
            split
            · exact ⟨rfl, hps, hpa, hac⟩
            · split
              · exact ⟨rfl, hps, hpa, hac⟩
              · exact ⟨by rw [h1], h2, by rw [h3, hpa], by rw [h4, hac]⟩

/-- C7: with an empty sink registry the abort controller never severs the
ingestion channel — the latch stays unset and the unlink body never runs,
under any schedule of triggers (ack exits, context cancellation) — and
the reader loop behaves exactly as it does on the trigger-free schedule,
so a session with only in-process subscribers proceeds to its normal
completion. -/
theorem c7_empty_sink_registry_never_severs (env : Env) (openRes : OpenResult)
    (steps : List Step) (hnp : env.proxies = []) :
    (ServeWait env openRes steps (initSessionState env)).state.pipeAborted = false
    ∧ (ServeWait env openRes steps (initSessionState env)).state.abortCount = 0
    ∧ streamBesEvents env steps (initSessionState env)
        = streamBesEvents env (steps.filter isPullStep) (initSessionState env) := by
  have hinit : (initSessionState env).proxyStates = [] := by
    simp [initSessionState, hnp]
  rcases streamBesEvents_no_proxies env hnp steps (initSessionState env) hinit with
    ⟨h1, _, h3, h4⟩
  refine ⟨?_, ?_, h1⟩
  · rw [ServeWait_pipeAborted]
    cases openRes with
    | openFailed => simp [initSessionState]
    | opened => rw [h3]; simp [initSessionState]
  · rw [ServeWait_abortCount]
    cases openRes with
    | openFailed => simp [initSessionState]
    | opened => rw [h4]; simp [initSessionState]

/-- Witness for C7: a session with one subscriber and no sinks, whose
schedule fires the context-cancellation trigger, an ack exit, and then
streams one final record: the pipe is never severed and the run equals
the trigger-free run. -/
theorem c7_empty_sink_registry_never_severs_witness :
    (ServeWait
        { buildId := "b", invocationId := "i",
          subscribers := [{ cbErr := fun _ => false }], proxies := [] }
        OpenResult.opened
        [Step.ctxDone, Step.ackExit 0, Step.pull (Pull.record { payloadId := 3, lastMessage := true })]
        (initSessionState
          { buildId := "b", invocationId := "i",
            subscribers := [{ cbErr := fun _ => false }], proxies := [] })).state.pipeAborted
      = false
    ∧ (ServeWait
        { buildId := "b", invocationId := "i",
          subscribers := [{ cbErr := fun _ => false }], proxies := [] }
        OpenResult.opened
        [Step.ctxDone, Step.ackExit 0, Step.pull (Pull.record { payloadId := 3, lastMessage := true })]
        (initSessionState
          { buildId := "b", invocationId := "i",
            subscribers := [{ cbErr := fun _ => false }], proxies := [] })).state.abortCount
      = 0
    ∧ streamBesEvents
        { buildId := "b", invocationId := "i",
          subscribers := [{ cbErr := fun _ => false }], proxies := [] }
        [Step.ctxDone, Step.ackExit 0, Step.pull (Pull.record { payloadId := 3, lastMessage := true })]
        (initSessionState
          { buildId := "b", invocationId := "i",
            subscribers := [{ cbErr := fun _ => false }], proxies := [] })
      = streamBesEvents
          { buildId := "b", invocationId := "i",
            subscribers := [{ cbErr := fun _ => false }], proxies := [] }
          ([Step.ctxDone, Step.ackExit 0,
              Step.pull (Pull.record { payloadId := 3, lastMessage := true })].filter isPullStep)
          (initSessionState
            { buildId := "b", invocationId := "i",
              subscribers := [{ cbErr := fun _ => false }], proxies := [] }) :=
  c7_empty_sink_registry_never_severs _ OpenResult.opened _ rfl

lemma ServeWait_subTraces (env : Env) (openRes : OpenResult) (steps : List Step)
    (st : SessionState) :
    (ServeWait env openRes steps st).state.subTraces
      = match openRes with
        | OpenResult.openFailed => st.subTraces
        | OpenResult.opened => (streamBesEvents env steps st).1.subTraces := by
  cases openRes with
  | openFailed => rfl
  | opened =>
    unfold ServeWait
    rcases h : (streamBesEvents env steps st).2 with _ | r
    · simp [h]
    · cases r <;> simp [h]

lemma ServeWait_seqId (env : Env) (openRes : OpenResult) (steps : List Step)
    (st : SessionState) :
    (ServeWait env openRes steps st).state.seqId
      = match openRes with
        | OpenResult.openFailed => st.seqId
        | OpenResult.opened => (streamBesEvents env steps st).1.seqId := by
  cases openRes with
  | openFailed => rfl
  | opened =>
    unfold ServeWait
    rcases h : (streamBesEvents env steps st).2 with _ | r
    · simp [h]
    · cases r <;> simp [h]

/-- C10: `ServeWait` returns nil on every path — the ingestion goroutine's
failures are never its return value — and each ingestion-side failure
(pipe-open failure, inactivity/deadline timeout, parse failure, publish
failure) is appended to the session's error accumulator, observable
through `Errors()`. -/
theorem c10_serveWait_returns_nil (env : Env) (openRes : OpenResult)
    (steps : List Step) (st : SessionState) :
    (ServeWait env openRes steps st).ret = none
    ∧ (openRes = OpenResult.openFailed →
        ErrorsOf (ServeWait env openRes steps st).state
          = ErrorsOf st ++ [SessErrKind.openPipeFailed])
    ∧ (openRes = OpenResult.opened →
        (streamBesEvents env steps st).2 = some StreamResult.timeoutErr →
        ErrorsOf (ServeWait env openRes steps st).state
          = ErrorsOf (streamBesEvents env steps st).1 ++ [SessErrKind.streamTimeout])
    ∧ (openRes = OpenResult.opened →
        (streamBesEvents env steps st).2 = some StreamResult.parseErr →
        ErrorsOf (ServeWait env openRes steps st).state
          = ErrorsOf (streamBesEvents env steps st).1 ++ [SessErrKind.streamParse])
    ∧ (openRes = OpenResult.opened →
        (streamBesEvents env steps st).2 = some StreamResult.publishErr →
        ErrorsOf (ServeWait env openRes steps st).state
          = ErrorsOf (streamBesEvents env steps st).1 ++ [SessErrKind.streamPublish]) := by
  cases openRes with
  | openFailed =>
      refine ⟨rfl, fun _ => rfl, ?_, ?_, ?_⟩ <;> intro hcontra <;> exact absurd hcontra (by simp)
  | opened =>
      have hret : (ServeWait env OpenResult.opened steps st).ret = none := by
        unfold ServeWait
        rcases h : (streamBesEvents env steps st).2 with _ | r
        · simp [h]
        · cases r <;> simp [h]
      refine ⟨hret, by intro hcontra; exact absurd hcontra (by simp), ?_, ?_, ?_⟩ <;>
        intro _ h <;> unfold ServeWait <;> simp [h, ErrorsOf]

/-- Witness for C10 at a concrete session: the pipe-open failure lands in
the accumulator while the return value is nil. -/
theorem c10_serveWait_returns_nil_witness :
    (ServeWait
        { buildId := "b", invocationId := "i",
          subscribers := [{ cbErr := fun _ => false }], proxies := [] }
        OpenResult.openFailed []
        (initSessionState
          { buildId := "b", invocationId := "i",
            subscribers := [{ cbErr := fun _ => false }], proxies := [] })).ret = none
    ∧ ErrorsOf (ServeWait
        { buildId := "b", invocationId := "i",
          subscribers := [{ cbErr := fun _ => false }], proxies := [] }
        OpenResult.openFailed []
        (initSessionState
          { buildId := "b", invocationId := "i",
            subscribers := [{ cbErr := fun _ => false }], proxies := [] })).state
      = [SessErrKind.openPipeFailed] := by
  have h := c10_serveWait_returns_nil
    { buildId := "b", invocationId := "i",
      subscribers := [{ cbErr := fun _ => false }], proxies := [] }
    OpenResult.openFailed []
    (initSessionState
      { buildId := "b", invocationId := "i",
        subscribers := [{ cbErr := fun _ => false }], proxies := [] })
  refine ⟨h.1, ?_⟩
  have h2 := h.2.1 rfl
  simpa [ErrorsOf, initSessionState] using h2

/-- Per-subscriber ordering invariant: every subscriber trace lists the
sequence numbers 1, 2, ..., seqId in order, one entry per decoded
record. -/
def SubTraceInv (st : SessionState) : Prop :=
  ∀ t ∈ st.subTraces, t.map Prod.fst = List.range' 1 st.seqId

lemma publishBesEvent_SubTraceInv (env : Env) (e : BuildEvent) (st : SessionState)
    (h : SubTraceInv st) :
    SubTraceInv (publishBesEvent env (st.seqId + 1) e.payloadId
      { st with seqId := st.seqId + 1 }).1 := by
  intro t ht
  rw [publishBesEvent_subTraces] at ht
  rcases List.mem_map.mp ht with ⟨t0, ht0, rfl⟩
  have hrange : List.range' 1 (st.seqId + 1) = List.range' 1 st.seqId ++ [1 + st.seqId] := by
    have h1 := @List.range'_concat 1 1 st.seqId
    simpa using h1
  have hseq : (publishBesEvent env (st.seqId + 1) e.payloadId
      { st with seqId := st.seqId + 1 }).1.seqId = st.seqId + 1 := by
    rw [publishBesEvent_seqId]
  rw [hseq, hrange, List.map_append, h t0 ht0]
  simp [Nat.add_comm]

lemma streamBesEvents_SubTraceInv (env : Env) (steps : List Step) (st : SessionState)
    (h : SubTraceInv st) : SubTraceInv (streamBesEvents env steps st).1 := by
  refine streamBesEvents_preserve env SubTraceInv ?_ ?_ steps st ?_ h
  · intro st' h' t ht
    rw [maybeAbort_subTraces] at ht
    rw [maybeAbort_seqId]
    exact h' t ht
  · intro e st' h'
    exact publishBesEvent_SubTraceInv env e st' h'
  · intro i _ st' h' t ht
    rw [markProxyUnhealthy_subTraces] at ht
    rw [markProxyUnhealthy_seqId]
    exact h' t ht

lemma streamBesEvents_subTraces_length (env : Env) (steps : List Step)
    (st : SessionState) :
    (streamBesEvents env steps st).1.subTraces.length = st.subTraces.length := by
  have h := streamBesEvents_preserve env
    (fun s => s.subTraces.length = st.subTraces.length) ?_ ?_ steps st ?_ rfl
  · exact h
  · intro st' h'
    rw [maybeAbort_subTraces]; exact h'
  · intro e st' h'
    rw [publishBesEvent_subTraces]
    simpa using h'
  · intro i _ st' h'
    rw [markProxyUnhealthy_subTraces]; exact h'

/-- C1: over any whole session run, every registered subscriber's callback
is invoked exactly once per decoded record, with sequence numbers exactly
1, 2, ..., N in strictly increasing decode order, where N is the number
of records the reader decoded (the final sequence counter). -/
theorem c1_subscriber_receives_all_records_in_order (env : Env) (steps : List Step)
    (j : Nat) (hj : j < env.subscribers.length) :
    ((ServeWait env OpenResult.opened steps (initSessionState env)).state.subTraces.getD
        j []).map Prod.fst
      = List.range' 1
          (ServeWait env OpenResult.opened steps (initSessionState env)).state.seqId := by
  rw [ServeWait_subTraces, ServeWait_seqId]
  have hlen : (streamBesEvents env steps (initSessionState env)).1.subTraces.length
      = env.subscribers.length := by
    rw [streamBesEvents_subTraces_length]
    simp [initSessionState]
  have hinv : SubTraceInv (streamBesEvents env steps (initSessionState env)).1 := by
    refine streamBesEvents_SubTraceInv env steps _ ?_
    intro t ht
    simp only [initSessionState, List.mem_map] at ht
    rcases ht with ⟨_, _, rfl⟩
    simp [initSessionState]
  have hj' : j < (streamBesEvents env steps (initSessionState env)).1.subTraces.length := by
    rw [hlen]; exact hj
  have hget : (streamBesEvents env steps (initSessionState env)).1.subTraces.getD j []
      ∈ (streamBesEvents env steps (initSessionState env)).1.subTraces := by
    rw [List.getD_eq_getElem _ _ hj']
    exact List.getElem_mem hj'
  exact hinv _ hget

/-- Witness for C1: one subscriber, one final record; its callback fires
once with sequence number 1. -/
theorem c1_subscriber_receives_all_records_in_order_witness :
    ((ServeWait
        { buildId := "b", invocationId := "i",
          subscribers := [{ cbErr := fun _ => false }], proxies := [] }
        OpenResult.opened
        [Step.pull (Pull.record { payloadId := 9, lastMessage := true })]
        (initSessionState
          { buildId := "b", invocationId := "i",
            subscribers := [{ cbErr := fun _ => false }], proxies := [] })).state.subTraces.getD
        0 []).map Prod.fst
      = List.range' 1
          (ServeWait
            { buildId := "b", invocationId := "i",
              subscribers := [{ cbErr := fun _ => false }], proxies := [] }
            OpenResult.opened
            [Step.pull (Pull.record { payloadId := 9, lastMessage := true })]
            (initSessionState
              { buildId := "b", invocationId := "i",
                subscribers := [{ cbErr := fun _ => false }], proxies := [] })).state.seqId :=
  c1_subscriber_receives_all_records_in_order _ _ 0 (by simp)

/-- Counterexample to C3 as stated: with two subscribers and two available
records (the second flagged final), a callback error of the first
subscriber on record 1 makes `publishBesEvent` return a non-nil error to
`streamBesEvents`, which aborts the event loop: the stream ends with a
publish error after decoding only one record, and the second subscriber —
which never errored — receives record 1 but never record 2. -/
theorem c3_subscriber_error_counterexample :
    (ServeWait
        { buildId := "b", invocationId := "i",
          subscribers := [{ cbErr := fun _ => true }, { cbErr := fun _ => false }],
          proxies := [] }
        OpenResult.opened
        [Step.pull (Pull.record { payloadId := 10, lastMessage := false }),
         Step.pull (Pull.record { payloadId := 11, lastMessage := true })]
        (initSessionState
          { buildId := "b", invocationId := "i",
            subscribers := [{ cbErr := fun _ => true }, { cbErr := fun _ => false }],
            proxies := [] })).result = some StreamResult.publishErr
    ∧ (ServeWait
        { buildId := "b", invocationId := "i",
          subscribers := [{ cbErr := fun _ => true }, { cbErr := fun _ => false }],
          proxies := [] }
        OpenResult.opened
        [Step.pull (Pull.record { payloadId := 10, lastMessage := false }),
         Step.pull (Pull.record { payloadId := 11, lastMessage := true })]
        (initSessionState
          { buildId := "b", invocationId := "i",
            subscribers := [{ cbErr := fun _ => true }, { cbErr := fun _ => false }],
            proxies := [] })).state.seqId = 1
    ∧ (ServeWait
        { buildId := "b", invocationId := "i",
          subscribers := [{ cbErr := fun _ => true }, { cbErr := fun _ => false }],
          proxies := [] }
        OpenResult.opened
        [Step.pull (Pull.record { payloadId := 10, lastMessage := false }),
         Step.pull (Pull.record { payloadId := 11, lastMessage := true })]
        (initSessionState
          { buildId := "b", invocationId := "i",
            subscribers := [{ cbErr := fun _ => true }, { cbErr := fun _ => false }],
            proxies := [] })).state.subTraces = [[(1, 10)], [(1, 10)]] := by
  refine ⟨rfl, rfl, rfl⟩

/-- C3 (amended): a subscriber callback error is accumulated in the
session's error list and does not prevent delivery of that same record to
the other subscribers and sinks — the record's whole fan-out completes —
but it does abort the event loop: `streamBesEvents` returns the publish
error without pulling any further record, so no later record is decoded
or delivered. -/
theorem c3_subscriber_error_accumulated_but_aborts_loop (env : Env)
    (e : BuildEvent) (rest : List Step) (st : SessionState)
    (herr : env.subscribers.any (fun s => s.cbErr (st.seqId + 1)) = true) :
    streamBesEvents env (Step.pull (Pull.record e) :: rest) st
      = ((publishBesEvent env (st.seqId + 1) e.payloadId
            { st with seqId := st.seqId + 1 }).1, some StreamResult.publishErr)
    ∧ (publishBesEvent env (st.seqId + 1) e.payloadId
          { st with seqId := st.seqId + 1 }).1.subTraces
      = st.subTraces.map (fun t => t ++ [(st.seqId + 1, e.payloadId)])
    ∧ ErrorsOf (ServeWait env OpenResult.opened
          (Step.pull (Pull.record e) :: rest) st).state
      = ErrorsOf st ++ [SessErrKind.streamPublish] := by
  have hsnd : (publishBesEvent env (st.seqId + 1) e.payloadId
      { st with seqId := st.seqId + 1 }).2 = true := by
    rw [publishBesEvent_snd]; exact herr
  have hstream : streamBesEvents env (Step.pull (Pull.record e) :: rest) st
      = ((publishBesEvent env (st.seqId + 1) e.payloadId
            { st with seqId := st.seqId + 1 }).1, some StreamResult.publishErr) := by
    simp only [streamBesEvents, hsnd, if_true]
  refine ⟨hstream, by rw [publishBesEvent_subTraces], ?_⟩
  unfold ServeWait
  rw [hstream]
  simp only [ErrorsOf]
  rw [publishBesEvent_errors]

/-- Witness for C3 (amended) with one always-erroring subscriber and one
non-final record. -/
theorem c3_subscriber_error_accumulated_but_aborts_loop_witness :
    streamBesEvents
        { buildId := "b", invocationId := "i",
          subscribers := [{ cbErr := fun _ => true }], proxies := [] }
        [Step.pull (Pull.record { payloadId := 5, lastMessage := false })]
        (initSessionState
          { buildId := "b", invocationId := "i",
            subscribers := [{ cbErr := fun _ => true }], proxies := [] })
      = ((publishBesEvent
            { buildId := "b", invocationId := "i",
              subscribers := [{ cbErr := fun _ => true }], proxies := [] }
            ((initSessionState
              { buildId := "b", invocationId := "i",
                subscribers := [{ cbErr := fun _ => true }], proxies := [] }).seqId + 1)
            5
            { (initSessionState
                { buildId := "b", invocationId := "i",
                  subscribers := [{ cbErr := fun _ => true }], proxies := [] }) with
              seqId := (initSessionState
                { buildId := "b", invocationId := "i",
                  subscribers := [{ cbErr := fun _ => true }], proxies := [] }).seqId + 1 }).1,
          some StreamResult.publishErr)
    ∧ (publishBesEvent
          { buildId := "b", invocationId := "i",
            subscribers := [{ cbErr := fun _ => true }], proxies := [] }
          ((initSessionState
            { buildId := "b", invocationId := "i",
              subscribers := [{ cbErr := fun _ => true }], proxies := [] }).seqId + 1)
          5
          { (initSessionState
              { buildId := "b", invocationId := "i",
                subscribers := [{ cbErr := fun _ => true }], proxies := [] }) with
            seqId := (initSessionState
              { buildId := "b", invocationId := "i",
                subscribers := [{ cbErr := fun _ => true }], proxies := [] }).seqId + 1 }).1.subTraces
      = (initSessionState
          { buildId := "b", invocationId := "i",
            subscribers := [{ cbErr := fun _ => true }], proxies := [] }).subTraces.map
          (fun t => t ++ [((initSessionState
              { buildId := "b", invocationId := "i",
                subscribers := [{ cbErr := fun _ => true }], proxies := [] }).seqId + 1, 5)])
    ∧ ErrorsOf (ServeWait
          { buildId := "b", invocationId := "i",
            subscribers := [{ cbErr := fun _ => true }], proxies := [] }
          OpenResult.opened
          [Step.pull (Pull.record { payloadId := 5, lastMessage := false })]
          (initSessionState
            { buildId := "b", invocationId := "i",
              subscribers := [{ cbErr := fun _ => true }], proxies := [] })).state
      = ErrorsOf (initSessionState
          { buildId := "b", invocationId := "i",
            subscribers := [{ cbErr := fun _ => true }], proxies := [] })
        ++ [SessErrKind.streamPublish] :=
  c3_subscriber_error_accumulated_but_aborts_loop _ _ [] _ (by decide)

/-- While the reader loop has not terminated, extending the schedule
continues the loop from the reached state. -/
lemma streamBesEvents_append (env : Env) (pre : List Step) :
    ∀ (post : List Step) (st : SessionState),
      (streamBesEvents env pre st).2 = none →
      streamBesEvents env (pre ++ post) st
        = streamBesEvents env post (streamBesEvents env pre st).1 := by
  induction pre with
  | nil => intro post st _; rfl
  | cons step rest ih =>
    intro post st h
    cases step with
    | ackExit i => exact ih post _ h
    | ctxDone => exact ih post _ h
    | pull p =>
        cases p with
        | eofThrottle => exact ih post _ h
        | eofTimeout => exact absurd h (by simp [streamBesEvents])
        | deadlineExceeded => exact absurd h (by simp [streamBesEvents])
        | parseFailure => exact absurd h (by simp [streamBesEvents])
        | record e =>
            rw [List.cons_append]
            simp only [streamBesEvents] at h ⊢
            split at h
            · simp at h
            · split at h
              · simp at h
              · rename_i h1 h2
                simp only [if_neg h1, if_neg h2]
                exact ih post _ h

/-- C6: a malformed or over-size record makes the reader fail immediately
with the parse (Protocol) error: the loop returns at the failure, the
error is appended to the session accumulator, and neither the malformed
record nor anything scheduled after it is delivered to any subscriber or
sink (subscriber traces, proxy states and the sequence counter are those
reached just before the failure, and no final lifecycle bracket is
sent). -/
theorem c6_parse_failure_terminates_session (env : Env) (pre post : List Step)
    (st : SessionState) (hpre : (streamBesEvents env pre st).2 = none) :
    streamBesEvents env (pre ++ Step.pull Pull.parseFailure :: post) st
      = ((streamBesEvents env pre st).1, some StreamResult.parseErr)
    ∧ (ServeWait env OpenResult.opened (pre ++ Step.pull Pull.parseFailure :: post)
        st).result = some StreamResult.parseErr
    ∧ (ServeWait env OpenResult.opened (pre ++ Step.pull Pull.parseFailure :: post)
        st).state.subTraces = (streamBesEvents env pre st).1.subTraces
    ∧ (ServeWait env OpenResult.opened (pre ++ Step.pull Pull.parseFailure :: post)
        st).state.proxyStates = (streamBesEvents env pre st).1.proxyStates
    ∧ (ServeWait env OpenResult.opened (pre ++ Step.pull Pull.parseFailure :: post)
        st).state.seqId = (streamBesEvents env pre st).1.seqId
    ∧ (ServeWait env OpenResult.opened (pre ++ Step.pull Pull.parseFailure :: post)
        st).state.errors
      = (streamBesEvents env pre st).1.errors ++ [SessErrKind.streamParse] := by
  have hstream : streamBesEvents env (pre ++ Step.pull Pull.parseFailure :: post) st
      = ((streamBesEvents env pre st).1, some StreamResult.parseErr) := by
    rw [streamBesEvents_append env pre _ st hpre]
    rfl
  refine ⟨hstream, ?_, ?_, ?_, ?_, ?_⟩ <;>
    · unfold ServeWait
      rw [hstream]

/-- Witness for C6: one valid non-final record, then a malformed record,
then a further (never-reached) record: the session ends with the parse
error, only record 1 was delivered, and only the parse error is
accumulated. -/
theorem c6_parse_failure_terminates_session_witness :
    streamBesEvents
        { buildId := "b", invocationId := "i",
          subscribers := [{ cbErr := fun _ => false }], proxies := [] }
        ([Step.pull (Pull.record { payloadId := 5, lastMessage := false })]
          ++ Step.pull Pull.parseFailure
            :: [Step.pull (Pull.record { payloadId := 6, lastMessage := true })])
        (initSessionState
          { buildId := "b", invocationId := "i",
            subscribers := [{ cbErr := fun _ => false }], proxies := [] })
      = ((streamBesEvents
            { buildId := "b", invocationId := "i",
              subscribers := [{ cbErr := fun _ => false }], proxies := [] }
            [Step.pull (Pull.record { payloadId := 5, lastMessage := false })]
            (initSessionState
              { buildId := "b", invocationId := "i",
                subscribers := [{ cbErr := fun _ => false }], proxies := [] })).1,
          some StreamResult.parseErr)
    ∧ (ServeWait
        { buildId := "b", invocationId := "i",
          subscribers := [{ cbErr := fun _ => false }], proxies := [] }
        OpenResult.opened
        ([Step.pull (Pull.record { payloadId := 5, lastMessage := false })]
          ++ Step.pull Pull.parseFailure
            :: [Step.pull (Pull.record { payloadId := 6, lastMessage := true })])
        (initSessionState
          { buildId := "b", invocationId := "i",
            subscribers := [{ cbErr := fun _ => false }], proxies := [] })).state.subTraces
      = (streamBesEvents
          { buildId := "b", invocationId := "i",
            subscribers := [{ cbErr := fun _ => false }], proxies := [] }
          [Step.pull (Pull.record { payloadId := 5, lastMessage := false })]
          (initSessionState
            { buildId := "b", invocationId := "i",
              subscribers := [{ cbErr := fun _ => false }], proxies := [] })).1.subTraces := by
  have h := c6_parse_failure_terminates_session
    { buildId := "b", invocationId := "i",
      subscribers := [{ cbErr := fun _ => false }], proxies := [] }
    [Step.pull (Pull.record { payloadId := 5, lastMessage := false })]
    [Step.pull (Pull.record { payloadId := 6, lastMessage := true })]
    (initSessionState
      { buildId := "b", invocationId := "i",
        subscribers := [{ cbErr := fun _ => false }], proxies := [] })
    (by decide)
  exact ⟨h.1, h.2.2.1⟩

/-- Effect of one record fan-out on the proxy at index `i`: exactly
`publishToProxy` applied to its model and current state. -/
lemma publishBesEventProxies_get (env : Env) (seq payload : Nat) (st : SessionState)
    (i : Nat) (pm : ProxyModel) (ps : ProxyState)
    (hpm : env.proxies[i]? = some pm) (hps : st.proxyStates[i]? = some ps) :
    (publishBesEventProxies env seq payload st).proxyStates[i]?
      = some (publishToProxy pm seq payload ps).1 := by
  have hlt : i < env.proxies.length := (List.getElem?_eq_some.mp hpm).1
  have hne : ¬env.proxies.length = 0 := by omega
  unfold publishBesEventProxies
  simp only [hne, if_false]
  have hzip : (List.zipWith (fun pm ps => publishToProxy pm seq payload ps)
      env.proxies st.proxyStates)[i]? = some (publishToProxy pm seq payload ps) := by
    rw [List.getElem?_zipWith', hpm, hps]
    rfl
  split
  · rw [maybeAbort_proxyStates]
    simp only [List.getElem?_map, hzip]
    rfl
  · simp only [List.getElem?_map, hzip]
    rfl

lemma publishBesEvent_proxy_get (env : Env) (seq payload : Nat) (st : SessionState)
    (i : Nat) (pm : ProxyModel) (ps : ProxyState)
    (hpm : env.proxies[i]? = some pm) (hps : st.proxyStates[i]? = some ps) :
    (publishBesEvent env seq payload st).1.proxyStates[i]?
      = some (publishToProxy pm seq payload ps).1 := by
  unfold publishBesEvent publishToSubscribers
  exact publishBesEventProxies_get env seq payload _ i pm ps hpm hps

lemma publishToProxy_of_failure (pm : ProxyModel) (seq payload : Nat)
    (ps : ProxyState) (hhealthy : ps.healthy = true)
    (hfail : pm.send seq ≠ SendOutcome.sendOk) :
    publishToProxy pm seq payload ps = ({ ps with healthy := false }, true) := by
  unfold publishToProxy
  rcases hout : pm.send seq with _ | _ | _
  · exact absurd hout hfail
  · simp [hhealthy]
  · simp [hhealthy]

lemma publishToProxy_of_sendOk (pm : ProxyModel) (seq payload : Nat)
    (ps : ProxyState) (hhealthy : ps.healthy = true)
    (hok : pm.send seq = SendOutcome.sendOk) :
    publishToProxy pm seq payload ps
      = ({ ps with trace := ps.trace ++ [SinkMsg.envelope seq payload] }, false) := by
  unfold publishToProxy
  simp [hhealthy, hok]

lemma publishToProxy_of_unhealthy (pm : ProxyModel) (seq payload : Nat)
    (ps : ProxyState) (hunhealthy : ps.healthy = false) :
    publishToProxy pm seq payload ps = (ps, false) := by
  unfold publishToProxy
  simp [hunhealthy]

/-- A proxy that has turned unhealthy stays unhealthy with a frozen trace
for the remainder of the reader loop: the one-way latch plus the healthy
guard in the per-proxy send task. -/
lemma streamBesEvents_unhealthy_frozen (env : Env) (i : Nat) (pm : ProxyModel)
    (hpm : env.proxies[i]? = some pm) (tr : List SinkMsg) (steps : List Step) :
    ∀ st : SessionState,
      (∃ ps, st.proxyStates[i]? = some ps ∧ ps.healthy = false ∧ ps.trace = tr) →
      ∃ ps', (streamBesEvents env steps st).1.proxyStates[i]? = some ps'
        ∧ ps'.healthy = false ∧ ps'.trace = tr := by
  intro st h
  refine streamBesEvents_preserve env
    (fun s => ∃ ps, s.proxyStates[i]? = some ps ∧ ps.healthy = false ∧ ps.trace = tr)
    ?_ ?_ steps st ?_ h
  · intro st' ⟨ps, hps, hh, ht⟩
    exact ⟨ps, by rw [maybeAbort_proxyStates]; exact hps, hh, ht⟩
  · intro e st' ⟨ps, hps, hh, ht⟩
    refine ⟨ps, ?_, hh, ht⟩
    have := publishBesEvent_proxy_get env (st'.seqId + 1) e.payloadId
      { st' with seqId := st'.seqId + 1 } i pm ps hpm hps
    rw [this, publishToProxy_of_unhealthy pm _ _ ps hh]
  · intro j _ st' ⟨ps, hps, hh, ht⟩
    unfold markProxyUnhealthy
    rcases hj : st'.proxyStates[j]? with _ | psj
    · exact ⟨ps, hps, hh, ht⟩
    · by_cases hij : j = i
      · subst hij
        rw [hj] at hps
        cases hps
        refine ⟨{ ps with healthy := false }, ?_, rfl, ht⟩
        have hlt : j < st'.proxyStates.length := (List.getElem?_eq_some.mp hj).1
        simp [List.getElem?_set_eq_of_lt _ hlt]
      · refine ⟨ps, ?_, hh, ht⟩
        rw [List.getElem?_set_ne hij]
        exact hps

/-- C5: when a sink's send of the record at sequence `seq` errors or times
out (per-send timeout `besSendTimeout` = one minute), that sink is marked
unhealthy and receives no envelope for this or any later record, while
the record's dispatch still succeeds for everyone else: the batch error
is exactly the subscribers' (sink outcomes never fail it), and every
other healthy sink with a successful send receives the envelope. -/
theorem c5_send_failure_marks_sink_unhealthy (env : Env) (seq payload : Nat)
    (st : SessionState) (i : Nat) (pm : ProxyModel) (ps : ProxyState)
    (hpm : env.proxies[i]? = some pm) (hps : st.proxyStates[i]? = some ps)
    (hhealthy : ps.healthy = true) (hfail : pm.send seq ≠ SendOutcome.sendOk) :
    (∃ ps1, (publishBesEvent env seq payload st).1.proxyStates[i]? = some ps1
      ∧ ps1.healthy = false ∧ ps1.trace = ps.trace)
    ∧ (publishBesEvent env seq payload st).2
      = env.subscribers.any (fun s => s.cbErr seq)
    ∧ (∀ j pmj psj, j ≠ i → env.proxies[j]? = some pmj →
        st.proxyStates[j]? = some psj → psj.healthy = true →
        pmj.send seq = SendOutcome.sendOk →
        (publishBesEvent env seq payload st).1.proxyStates[j]?
          = some { psj with trace := psj.trace ++ [SinkMsg.envelope seq payload] })
    ∧ (∀ rest, ∃ ps2,
        (streamBesEvents env rest (publishBesEvent env seq payload st).1).1.proxyStates[i]?
            = some ps2
          ∧ ps2.healthy = false ∧ ps2.trace = ps.trace)
    ∧ besSendTimeoutMs = 60 * 1000 := by
  have hget := publishBesEvent_proxy_get env seq payload st i pm ps hpm hps
  rw [publishToProxy_of_failure pm seq payload ps hhealthy hfail] at hget
  have hfrozen : ∃ ps1, (publishBesEvent env seq payload st).1.proxyStates[i]? = some ps1
      ∧ ps1.healthy = false ∧ ps1.trace = ps.trace :=
    ⟨{ ps with healthy := false }, hget, rfl, rfl⟩
  refine ⟨hfrozen, publishBesEvent_snd env seq payload st, ?_, ?_, rfl⟩
  · intro j pmj psj _ hpmj hpsj hhj hokj
    have hgetj := publishBesEvent_proxy_get env seq payload st j pmj psj hpmj hpsj
    rw [publishToProxy_of_sendOk pmj seq payload psj hhj hokj] at hgetj
    exact hgetj
  · intro rest
    exact streamBesEvents_unhealthy_frozen env i pm hpm ps.trace rest _ hfrozen

/-- Witness for C5: two sinks; the first one's send of record 1 times out
while the second one's succeeds. -/
theorem c5_send_failure_marks_sink_unhealthy_witness :
    (∃ ps1, (publishBesEvent
        { buildId := "b", invocationId := "i", subscribers := [],
          proxies := [{ send := fun _ => SendOutcome.sendTimeout },
            { send := fun _ => SendOutcome.sendOk }] }
        1 42
        (initSessionState
          { buildId := "b", invocationId := "i", subscribers := [],
            proxies := [{ send := fun _ => SendOutcome.sendTimeout },
              { send := fun _ => SendOutcome.sendOk }] })).1.proxyStates[0]? = some ps1
      ∧ ps1.healthy = false
      ∧ ps1.trace = (sendInitialLifecycleEvents "b" "i").map SinkMsg.lifecycle)
    ∧ (publishBesEvent
        { buildId := "b", invocationId := "i", subscribers := [],
          proxies := [{ send := fun _ => SendOutcome.sendTimeout },
            { send := fun _ => SendOutcome.sendOk }] }
        1 42
        (initSessionState
          { buildId := "b", invocationId := "i", subscribers := [],
            proxies := [{ send := fun _ => SendOutcome.sendTimeout },
              { send := fun _ => SendOutcome.sendOk }] })).2 = false := by
  have h := c5_send_failure_marks_sink_unhealthy
    { buildId := "b", invocationId := "i", subscribers := [],
      proxies := [{ send := fun _ => SendOutcome.sendTimeout },
        { send := fun _ => SendOutcome.sendOk }] }
    1 42
    (initSessionState
      { buildId := "b", invocationId := "i", subscribers := [],
        proxies := [{ send := fun _ => SendOutcome.sendTimeout },
          { send := fun _ => SendOutcome.sendOk }] })
    0 { send := fun _ => SendOutcome.sendTimeout }
    { healthy := true,
      trace := (sendInitialLifecycleEvents "b" "i").map SinkMsg.lifecycle }
    rfl rfl rfl (by simp)
  refine ⟨h.1, ?_⟩
  rw [h.2.1]
  rfl

/-- The two-message "open" bracket a sink receives at registration. -/
def openBrackets (env : Env) : List SinkMsg :=
  (sendInitialLifecycleEvents env.buildId env.invocationId).map SinkMsg.lifecycle

/-- The closing messages a still-healthy sink receives on normal
completion: the "finished" bracket followed by `CloseSend`. -/
def closeBrackets (env : Env) : List SinkMsg :=
  (sendFinalLifecycleEvents env.buildId env.invocationId).map SinkMsg.lifecycle
    ++ [SinkMsg.closeSend]

/-- Sequence number carried by a wire envelope (0 for other messages). -/
def envSeq : SinkMsg → Nat
  | SinkMsg.envelope n _ => n
  | SinkMsg.lifecycle _ => 0
  | SinkMsg.closeSend => 0

/-- Whether a sink message is a main-stream wire envelope. -/
def isEnvelope : SinkMsg → Bool
  | SinkMsg.envelope _ _ => true
  | SinkMsg.lifecycle _ => false
  | SinkMsg.closeSend => false

/-- Number of "attempt finished" brackets in a sink trace. -/
def countAttemptFinished (tr : List SinkMsg) : Nat :=
  tr.countP (fun m =>
    match m with
    | SinkMsg.lifecycle r => decide (r.event = LifecycleKind.invocationAttemptFinished)
    | SinkMsg.envelope _ _ => false
    | SinkMsg.closeSend => false)

lemma publishBesEvent_published_of_ne (env : Env) (seq payload : Nat)
    (st : SessionState) (hne : ¬env.proxies.length = 0) :
    (publishBesEvent env seq payload st).1.published
      = st.published ++ [SinkMsg.envelope seq payload] := by
  unfold publishBesEvent publishToSubscribers publishBesEventProxies
  simp only [hne, if_false]
  split
  · rw [maybeAbort_published]
  · rfl

lemma publishBesEvent_published_of_zero (env : Env) (seq payload : Nat)
    (st : SessionState) (hz : env.proxies.length = 0) :
    (publishBesEvent env seq payload st).1.published = st.published := by
  unfold publishBesEvent publishToSubscribers publishBesEventProxies
  simp only [hz, if_true]

/-- With at least one registered sink, the published envelopes carry
sequence numbers exactly 1, 2, ..., seqId in order, and all published
messages are envelopes. -/
lemma streamBesEvents_published (env : Env) (hne : ¬env.proxies.length = 0)
    (steps : List Step) (st : SessionState)
    (h : st.published.map envSeq = List.range' 1 st.seqId
      ∧ st.published.all isEnvelope = true) :
    (streamBesEvents env steps st).1.published.map envSeq
        = List.range' 1 (streamBesEvents env steps st).1.seqId
      ∧ (streamBesEvents env steps st).1.published.all isEnvelope = true := by
  refine streamBesEvents_preserve env
    (fun s => s.published.map envSeq = List.range' 1 s.seqId
      ∧ s.published.all isEnvelope = true) ?_ ?_ steps st ?_ h
  · intro st' h'
    rw [maybeAbort_published, maybeAbort_seqId]
    exact h'
  · intro e st' h'
    have hp := publishBesEvent_published_of_ne env (st'.seqId + 1) e.payloadId
      { st' with seqId := st'.seqId + 1 } hne
    have hs := publishBesEvent_seqId env (st'.seqId + 1) e.payloadId
      { st' with seqId := st'.seqId + 1 }
    rw [hp, hs]
    constructor
    · have hrange : List.range' 1 (st'.seqId + 1)
          = List.range' 1 st'.seqId ++ [1 + st'.seqId] := by
        have h1 := @List.range'_concat 1 1 st'.seqId
        simpa using h1
      rw [List.map_append, h'.1]
      simp [hrange, envSeq, Nat.add_comm]
    · rw [List.all_append]
      simp [h'.2, isEnvelope]
  · intro i _ st' h'
    rw [markProxyUnhealthy_published, markProxyUnhealthy_seqId]
    exact h'

/-- A sink that is healthy for the whole run — its sends all succeed and
its ack listener never exits — stays healthy through the reader loop and
its trace is exactly the open bracket followed by the published
envelopes. -/
lemma streamBesEvents_healthy_trace (env : Env) (i : Nat) (pm : ProxyModel)
    (hpm : env.proxies[i]? = some pm) (hok : ∀ n, pm.send n = SendOutcome.sendOk)
    (steps : List Step) (hack : Step.ackExit i ∉ steps) (st : SessionState)
    (h : ∃ ps, st.proxyStates[i]? = some ps ∧ ps.healthy = true
      ∧ ps.trace = openBrackets env ++ st.published) :
    ∃ ps', (streamBesEvents env steps st).1.proxyStates[i]? = some ps'
      ∧ ps'.healthy = true
      ∧ ps'.trace = openBrackets env ++ (streamBesEvents env steps st).1.published := by
  have hne : ¬env.proxies.length = 0 := by
    have hlt : i < env.proxies.length := (List.getElem?_eq_some.mp hpm).1
    omega
  refine streamBesEvents_preserve env
    (fun s => ∃ ps, s.proxyStates[i]? = some ps ∧ ps.healthy = true
      ∧ ps.trace = openBrackets env ++ s.published) ?_ ?_ steps st ?_ h
  · intro st' ⟨ps, hps, hh, ht⟩
    exact ⟨ps, by rw [maybeAbort_proxyStates]; exact hps,
      hh, by rw [maybeAbort_published]; exact ht⟩
  · intro e st' ⟨ps, hps, hh, ht⟩
    have hget := publishBesEvent_proxy_get env (st'.seqId + 1) e.payloadId
      { st' with seqId := st'.seqId + 1 } i pm ps hpm hps
    rw [publishToProxy_of_sendOk pm _ _ ps hh (hok _)] at hget
    refine ⟨_, hget, hh, ?_⟩
    have hp := publishBesEvent_published_of_ne env (st'.seqId + 1) e.payloadId
      { st' with seqId := st'.seqId + 1 } hne
    rw [hp]
    simp only [ht, List.append_assoc]
  · intro j hj st' ⟨ps, hps, hh, ht⟩
    have hji : j ≠ i := fun hc => hack (hc ▸ hj)
    unfold markProxyUnhealthy
    rcases hjq : st'.proxyStates[j]? with _ | psj
    · exact ⟨ps, hps, hh, ht⟩
    · refine ⟨ps, ?_, hh, ht⟩
      rw [List.getElem?_set_ne hji]
      exact hps

lemma publishBesEvent_proxyStates_eq_zero (env : Env) (seq payload : Nat)
    (st : SessionState) (hz : env.proxies.length = 0) :
    (publishBesEvent env seq payload st).1.proxyStates = st.proxyStates := by
  unfold publishBesEvent publishToSubscribers publishBesEventProxies
  simp only [if_pos hz]

lemma publishBesEvent_proxyStates_eq (env : Env) (seq payload : Nat)
    (st : SessionState) (hz : ¬env.proxies.length = 0) :
    (publishBesEvent env seq payload st).1.proxyStates
      = (List.zipWith (fun pm ps => publishToProxy pm seq payload ps)
          env.proxies st.proxyStates).map (fun r => r.1) := by
  unfold publishBesEvent publishToSubscribers publishBesEventProxies
  simp only [if_neg hz]
  split
  · rw [maybeAbort_proxyStates]
  · rfl

lemma publishBesEvent_proxyStates_length (env : Env) (seq payload : Nat)
    (st : SessionState) (hlen : st.proxyStates.length = env.proxies.length) :
    (publishBesEvent env seq payload st).1.proxyStates.length = env.proxies.length := by
  by_cases hz : env.proxies.length = 0
  · rw [publishBesEvent_proxyStates_eq_zero env seq payload st hz, hlen]
  · rw [publishBesEvent_proxyStates_eq env seq payload st hz]
    simp [hlen]

lemma countAttemptFinished_publishToProxy (pm : ProxyModel) (seq payload : Nat)
    (ps : ProxyState) :
    countAttemptFinished (publishToProxy pm seq payload ps).1.trace
      = countAttemptFinished ps.trace := by
  unfold publishToProxy
  by_cases hh : ps.healthy
  · simp only [hh, Bool.not_true, Bool.false_eq_true, if_false]
    rcases pm.send seq with _ | _ | _
    · simp [countAttemptFinished, List.countP_append]
    · rfl
    · rfl
  · have hh2 : ps.healthy = false := by simpa using hh
    simp [hh2]

/-- Inverse view of the per-record sink update: a proxy state present
after the fan-out is either untouched (no sinks registered) or the
`publishToProxy` image of a proxy state present before. -/
lemma publishBesEvent_proxyStates_get_inv (env : Env) (seq payload : Nat)
    (st : SessionState) (j : Nat) (ps' : ProxyState)
    (hq : (publishBesEvent env seq payload st).1.proxyStates[j]? = some ps') :
    st.proxyStates[j]? = some ps'
    ∨ ∃ pmj psj, env.proxies[j]? = some pmj ∧ st.proxyStates[j]? = some psj
        ∧ ps' = (publishToProxy pmj seq payload psj).1 := by
  by_cases hz : env.proxies.length = 0
  · rw [publishBesEvent_proxyStates_eq_zero env seq payload st hz] at hq
    exact Or.inl hq
  · rw [publishBesEvent_proxyStates_eq env seq payload st hz] at hq
    right
    rw [List.getElem?_map, List.getElem?_zipWith'] at hq
    rcases hpmj : env.proxies[j]? with _ | pmj
    · rw [hpmj] at hq
      simp at hq
    · rcases hpsj : st.proxyStates[j]? with _ | psj
      · rw [hpmj, hpsj] at hq
        simp at hq
      · rw [hpmj, hpsj] at hq
        simp at hq
        exact ⟨pmj, psj, rfl, rfl, hq.symm⟩

/-- During the reader loop no "attempt finished" bracket is ever sent:
sink traces only gain wire envelopes. -/
def NoFinishBracket (env : Env) (st : SessionState) : Prop :=
  st.proxyStates.length = env.proxies.length
  ∧ ∀ (j : Nat) (ps : ProxyState),
      st.proxyStates[j]? = some ps → countAttemptFinished ps.trace = 0

lemma streamBesEvents_NoFinishBracket (env : Env) (steps : List Step)
    (st : SessionState) (h : NoFinishBracket env st) :
    NoFinishBracket env (streamBesEvents env steps st).1 := by
  refine streamBesEvents_preserve env (NoFinishBracket env) ?_ ?_ steps st ?_ h
  · intro st' h'
    refine ⟨by rw [maybeAbort_proxyStates]; exact h'.1, ?_⟩
    intro j ps hq
    rw [maybeAbort_proxyStates] at hq
    exact h'.2 j ps hq
  · intro e st' h'
    refine ⟨publishBesEvent_proxyStates_length env _ _ _ h'.1, ?_⟩
    intro j ps hq
    rcases publishBesEvent_proxyStates_get_inv env _ _ _ j ps hq with
      h0 | ⟨pmj, psj, _, hpsj, rfl⟩
    · exact h'.2 j ps h0
    · rw [countAttemptFinished_publishToProxy]
      exact h'.2 j psj hpsj
  · intro jj _ st' h'
    unfold markProxyUnhealthy
    rcases hjq : st'.proxyStates[jj]? with _ | psjj
    · exact h'
    · refine ⟨by simpa using h'.1, ?_⟩
      intro j ps hq
      by_cases hje : jj = j
      · subst hje
        have hlt : jj < st'.proxyStates.length := (List.getElem?_eq_some.mp hjq).1
        rw [List.getElem?_set_eq_of_lt _ hlt] at hq
        cases hq
        exact h'.2 jj psjj hjq
      · rw [List.getElem?_set_ne hje] at hq
        exact h'.2 j ps hq

lemma ServeWait_result_opened (env : Env) (steps : List Step) (st : SessionState) :
    (ServeWait env OpenResult.opened steps st).result
      = (streamBesEvents env steps st).2 := by
  unfold ServeWait
  rcases h : (streamBesEvents env steps st).2 with _ | r
  · simp [h]
  · cases r <;> simp [h]

lemma ServeWait_state_normal (env : Env) (steps : List Step) (st : SessionState)
    (h : (streamBesEvents env steps st).2 = some StreamResult.normal) :
    (ServeWait env OpenResult.opened steps st).state
      = { (streamBesEvents env steps st).1 with
          proxyStates := (streamBesEvents env steps st).1.proxyStates.map (fun ps =>
            if ps.healthy then { ps with trace := ps.trace ++ closeBrackets env }
            else ps) } := by
  unfold ServeWait
  simp only [h]
  rfl

lemma countAttemptFinished_append (a b : List SinkMsg) :
    countAttemptFinished (a ++ b) = countAttemptFinished a + countAttemptFinished b := by
  unfold countAttemptFinished
  rw [List.countP_append]

lemma countAttemptFinished_closeBrackets (env : Env) :
    countAttemptFinished (closeBrackets env) = 1 := rfl

lemma countAttemptFinished_openBrackets (env : Env) :
    countAttemptFinished (openBrackets env) = 0 := rfl

lemma initSessionState_proxyStates_get (env : Env) (i : Nat) (pm : ProxyModel)
    (hpm : env.proxies[i]? = some pm) :
    (initSessionState env).proxyStates[i]?
      = some { healthy := true,
               trace := List.map SinkMsg.lifecycle
                 (sendInitialLifecycleEvents env.buildId env.invocationId) } := by
  show (env.proxies.map _)[i]? = _
  rw [List.getElem?_map, hpm]
  rfl

lemma initSessionState_count (env : Env) :
    ∀ (j : Nat) (ps : ProxyState),
      (initSessionState env).proxyStates[j]? = some ps →
      countAttemptFinished ps.trace = 0 := by
  intro j ps hq
  have hq2 : (env.proxies.map (fun _ =>
      ({ healthy := true,
         trace := List.map SinkMsg.lifecycle
           (sendInitialLifecycleEvents env.buildId env.invocationId) } : ProxyState)))[j]?
      = some ps := hq
  rw [List.getElem?_map] at hq2
  rcases hj : env.proxies[j]? with _ | pmj
  · rw [hj] at hq2
    simp at hq2
  · rw [hj] at hq2
    simp at hq2
    cases hq2
    rfl

/-- C2: a sink that stays healthy for the whole session — every send
succeeds and its ack listener never exits — and a run that completes
normally: the sink's trace is exactly the one "enqueued" and one
"started" bracket, then the published wire envelopes (whose sequence
numbers are exactly 1..N in increasing order, N the number of decoded
records), then the single "finished" bracket and the close of the send
direction.  Moreover, on normal completion, any sink holds exactly one
"finished" bracket if and only if it is healthy at the moment the main
stream finishes. -/
theorem c2_healthy_sink_receives_bracketed_ordered_stream (env : Env)
    (steps : List Step) (i : Nat) (pm : ProxyModel)
    (hpm : env.proxies[i]? = some pm)
    (hok : ∀ n, pm.send n = SendOutcome.sendOk)
    (hack : Step.ackExit i ∉ steps)
    (hnormal : (ServeWait env OpenResult.opened steps (initSessionState env)).result
      = some StreamResult.normal) :
    (∃ ps, (ServeWait env OpenResult.opened steps
          (initSessionState env)).state.proxyStates[i]? = some ps
      ∧ ps.healthy = true
      ∧ ps.trace = openBrackets env
          ++ (ServeWait env OpenResult.opened steps (initSessionState env)).state.published
          ++ closeBrackets env)
    ∧ (ServeWait env OpenResult.opened steps
          (initSessionState env)).state.published.map envSeq
      = List.range' 1
          (ServeWait env OpenResult.opened steps (initSessionState env)).state.seqId
    ∧ (ServeWait env OpenResult.opened steps
          (initSessionState env)).state.published.all isEnvelope = true
    ∧ (∀ (j : Nat) (psj : ProxyState),
        (ServeWait env OpenResult.opened steps
            (initSessionState env)).state.proxyStates[j]? = some psj →
        countAttemptFinished psj.trace = if psj.healthy = true then 1 else 0) := by
  have hres : (streamBesEvents env steps (initSessionState env)).2
      = some StreamResult.normal := by
    rw [← ServeWait_result_opened]
    exact hnormal
  have hstate := ServeWait_state_normal env steps (initSessionState env) hres
  have hne : ¬env.proxies.length = 0 := by
    have hlt : i < env.proxies.length := (List.getElem?_eq_some.mp hpm).1
    omega
  have hpubinv := streamBesEvents_published env hne steps (initSessionState env)
    (by constructor <;> simp [initSessionState])
  have htrace := streamBesEvents_healthy_trace env i pm hpm hok steps hack
    (initSessionState env)
    ⟨{ healthy := true,
        trace := (sendInitialLifecycleEvents env.buildId env.invocationId).map
          SinkMsg.lifecycle },
      initSessionState_proxyStates_get env i pm hpm,
      rfl,
      by simp [initSessionState, openBrackets]⟩
  have hnfb := streamBesEvents_NoFinishBracket env steps (initSessionState env)
    ⟨by simp [initSessionState], initSessionState_count env⟩
  rcases htrace with ⟨ps', hps', hhealthy', htrace'⟩
  refine ⟨?_, ?_, ?_, ?_⟩
  · refine ⟨{ ps' with trace := ps'.trace ++ closeBrackets env }, ?_, hhealthy', ?_⟩
    · rw [hstate]
      show ((streamBesEvents env steps (initSessionState env)).1.proxyStates.map
        (fun ps => if ps.healthy then { ps with trace := ps.trace ++ closeBrackets env }
          else ps))[i]? = _
      rw [List.getElem?_map, hps']
      simp [hhealthy']
    · show ps'.trace ++ closeBrackets env = _
      rw [htrace', hstate]
  · rw [hstate]
    exact hpubinv.1
  · rw [hstate]
    exact hpubinv.2
  · intro j psj hq
    rw [hstate] at hq
    have hq2 : ((streamBesEvents env steps (initSessionState env)).1.proxyStates.map
        (fun ps => if ps.healthy then { ps with trace := ps.trace ++ closeBrackets env }
          else ps))[j]? = some psj := hq
    rw [List.getElem?_map] at hq2
    rcases hj : (streamBesEvents env steps (initSessionState env)).1.proxyStates[j]? with
      _ | psj0
    · rw [hj] at hq2
      simp at hq2
    · rw [hj] at hq2
      have hq3 := Option.some.inj hq2
      dsimp only at hq3
      have hcount0 := hnfb.2 j psj0 hj
      by_cases hh : psj0.healthy = true
      · rw [if_pos hh] at hq3
        cases hq3
        rw [countAttemptFinished_append, hcount0, countAttemptFinished_closeBrackets]
        simp [hh]
      · rw [if_neg hh] at hq3
        cases hq3
        rw [hcount0]
        simp only [Bool.not_eq_true] at hh
        simp [hh]

/-- Witness for C2: one always-healthy sink, two records (second final);
the sink's trace is the open bracket, envelopes 1 and 2, then the close
bracket, and the envelope sequence numbers are 1, 2. -/
theorem c2_healthy_sink_receives_bracketed_ordered_stream_witness :
    (∃ ps, (ServeWait
          { buildId := "b", invocationId := "i",
            subscribers := [{ cbErr := fun _ => false }],
            proxies := [{ send := fun _ => SendOutcome.sendOk }] }
          OpenResult.opened
          [Step.pull (Pull.record { payloadId := 7, lastMessage := false }),
           Step.pull (Pull.record { payloadId := 8, lastMessage := true })]
          (initSessionState
            { buildId := "b", invocationId := "i",
              subscribers := [{ cbErr := fun _ => false }],
              proxies := [{ send := fun _ => SendOutcome.sendOk }] })).state.proxyStates[0]?
        = some ps
      ∧ ps.healthy = true
      ∧ ps.trace = openBrackets
            { buildId := "b", invocationId := "i",
              subscribers := [{ cbErr := fun _ => false }],
              proxies := [{ send := fun _ => SendOutcome.sendOk }] }
          ++ (ServeWait
              { buildId := "b", invocationId := "i",
                subscribers := [{ cbErr := fun _ => false }],
                proxies := [{ send := fun _ => SendOutcome.sendOk }] }
              OpenResult.opened
              [Step.pull (Pull.record { payloadId := 7, lastMessage := false }),
               Step.pull (Pull.record { payloadId := 8, lastMessage := true })]
              (initSessionState
                { buildId := "b", invocationId := "i",
                  subscribers := [{ cbErr := fun _ => false }],
                  proxies := [{ send := fun _ => SendOutcome.sendOk }] })).state.published
          ++ closeBrackets
            { buildId := "b", invocationId := "i",
              subscribers := [{ cbErr := fun _ => false }],
              proxies := [{ send := fun _ => SendOutcome.sendOk }] })
    ∧ (ServeWait
          { buildId := "b", invocationId := "i",
            subscribers := [{ cbErr := fun _ => false }],
            proxies := [{ send := fun _ => SendOutcome.sendOk }] }
          OpenResult.opened
          [Step.pull (Pull.record { payloadId := 7, lastMessage := false }),
           Step.pull (Pull.record { payloadId := 8, lastMessage := true })]
          (initSessionState
            { buildId := "b", invocationId := "i",
              subscribers := [{ cbErr := fun _ => false }],
              proxies := [{ send := fun _ => SendOutcome.sendOk }] })).state.published.map
        envSeq
      = List.range' 1
          (ServeWait
            { buildId := "b", invocationId := "i",
              subscribers := [{ cbErr := fun _ => false }],
              proxies := [{ send := fun _ => SendOutcome.sendOk }] }
            OpenResult.opened
            [Step.pull (Pull.record { payloadId := 7, lastMessage := false }),
             Step.pull (Pull.record { payloadId := 8, lastMessage := true })]
            (initSessionState
              { buildId := "b", invocationId := "i",
                subscribers := [{ cbErr := fun _ => false }],
                proxies := [{ send := fun _ => SendOutcome.sendOk }] })).state.seqId := by
  have h := c2_healthy_sink_receives_bracketed_ordered_stream
    { buildId := "b", invocationId := "i",
      subscribers := [{ cbErr := fun _ => false }],
      proxies := [{ send := fun _ => SendOutcome.sendOk }] }
    [Step.pull (Pull.record { payloadId := 7, lastMessage := false }),
     Step.pull (Pull.record { payloadId := 8, lastMessage := true })]
    0 { send := fun _ => SendOutcome.sendOk }
    rfl (fun _ => rfl) (by decide) (by decide)
  exact ⟨h.1, h.2.1⟩
